import Mathlib

/-!
Verification of the configuration/versioning layer of kaldi's planned tensor
library, `src/tensor/tensor-common.h`: device and data-type enumerations, the
byte-size query `SizeOf`, process-wide default registers with scoped override
guards, the `TensorOptions` resolver, the tick counter, and the debug gate.

Global mutable state (the two default registers, the tick counter and the
debug flag) is embedded by explicit state passing over a `GlobalState`
record.  Machine integers (`int32`, `int64`) are embedded as `Int`; signed
overflow of the tick counter is undefined behaviour in the source language
and declared out of scope by the documentation, so the counter is unbounded
here.
-/

namespace KaldiTensor

/-- `enum DeviceType { kCpuDevice = 0, kCudaDevice = 1 }`. -/
inductive DeviceType where
  | kCpuDevice
  | kCudaDevice
deriving DecidableEq, Repr

/-- Numeric value of each `DeviceType` enumerant. -/
def DeviceType.toInt : DeviceType → Int
  | .kCpuDevice => 0
  | .kCudaDevice => 1

/-- `struct Device { DeviceType device_type; ... }`. -/
structure Device where
  device_type : DeviceType
deriving DecidableEq, Repr

/-- The no-argument constructor `Device(): device_type(kCpuDevice) { }`. -/
def Device.mkDefault : Device := ⟨DeviceType.kCpuDevice⟩

/-- The converting constructor `Device(DeviceType t): device_type(t) { }`. -/
def Device.ofType (t : DeviceType) : Device := ⟨t⟩

/-- `enum DataType { kDefaultDtype = 0, kFloatDtype = 1, kDoubleDtype = 2 }`. -/
inductive DataType where
  | kDefaultDtype
  | kFloatDtype
  | kDoubleDtype
deriving DecidableEq, Repr

/-- Numeric value of each `DataType` enumerant. -/
def DataType.toInt : DataType → Int
  | .kDefaultDtype => 0
  | .kFloatDtype => 1
  | .kDoubleDtype => 2

/-- Possible outcomes of running the body of `SizeOf`: a normal `return`, a
fatal `KALDI_ERR` diagnostic carrying the offending value it prints, or
control falling off the end of the `switch` (and of the non-void function)
with no `return` executed. -/
inductive SizeOfOutcome where
  | ret (bytes : Int)
  | kaldiErr (offending : Int)
  | fallThrough
deriving DecidableEq, Repr

/-- `inline int32 SizeOf(DataType dtype)`: the `switch(dtype)` has
`case 0: return 4; case 1: return 8; case 2: KALDI_ERR << "Invalid data-type "
<< int32(dtype); return 0;` and no `default` label.  A C++ enum variable may
carry any value of the underlying integer type, so the argument is embedded
as `Int`; values outside `{0, 1, 2}` match no case and fall through. -/
def SizeOf (dtype : Int) : SizeOfOutcome :=
  if dtype = 0 then .ret 4
  else if dtype = 1 then .ret 8
  else if dtype = 2 then .kaldiErr dtype
  else .fallThrough

/-- The process-wide mutable state of tensor-common: the default-device and
default-dtype registers, `g_tick_counter`, and `debug_mode`. -/
structure GlobalState where
  default_device : Device
  default_dtype : DataType
  g_tick_counter : Int
  debug_mode : Bool
deriving DecidableEq, Repr

/-- Modelled from the spec: the initializers of the globals live in
`tensor-common.cc`, which is absent; the spec fixes device = CPU, numeric
type = an implementation-chosen concrete default (single-precision float
here), tick counter = 0 (also stated in the header comment), debug = false. -/
def initState : GlobalState :=
  ⟨Device.mkDefault, DataType.kFloatDtype, 0, false⟩

/-- Modelled from the spec: `Device GetDefaultDevice();` is declared in the
header and defined in the absent `tensor-common.cc`; per the spec it returns
the value currently in the default-device register. -/
def GetDefaultDevice (s : GlobalState) : Device := s.default_device

/-- Modelled from the spec: `void SetDefaultDevice(Device);` unconditionally
overwrites the default-device register. -/
def SetDefaultDevice (device : Device) (s : GlobalState) : GlobalState :=
  { s with default_device := device }

/-- Modelled from the spec: `DataType GetDefaultDtype();` returns the value
currently in the default-dtype register. -/
def GetDefaultDtype (s : GlobalState) : DataType := s.default_dtype

/-- Modelled from the spec: `void SetDefaultDtype(DataType);` unconditionally
overwrites the default-dtype register. -/
def SetDefaultDtype (dtype : DataType) (s : GlobalState) : GlobalState :=
  { s with default_dtype := dtype }

/-- `class WithDeviceAs`: its only data member is `Device prev_default_`. -/
structure WithDeviceAs where
  prev_default : Device
deriving DecidableEq, Repr

/-- The constructor `WithDeviceAs(Device device): prev_default_(GetDefaultDevice())
{ SetDefaultDevice(device); }`: captures the current register value into the
guard, then installs the new value. -/
def WithDeviceAs.construct (device : Device) (s : GlobalState) :
    WithDeviceAs × GlobalState :=
  (⟨GetDefaultDevice s⟩, SetDefaultDevice device s)

/-- The destructor `~WithDeviceAs() { SetDefaultDevice(prev_default_); }`. -/
def WithDeviceAs.destruct (g : WithDeviceAs) (s : GlobalState) : GlobalState :=
  SetDefaultDevice g.prev_default s

/-- `class WithDtypeAs`: its only data member is `DataType prev_default_`. -/
structure WithDtypeAs where
  prev_default : DataType
deriving DecidableEq, Repr

/-- The constructor `WithDtypeAs(DataType dtype): prev_default_(GetDefaultDtype())
{ SetDefaultDtype(dtype); }`. -/
def WithDtypeAs.construct (dtype : DataType) (s : GlobalState) :
    WithDtypeAs × GlobalState :=
  (⟨GetDefaultDtype s⟩, SetDefaultDtype dtype s)

/-- The destructor `~WithDtypeAs() { SetDefaultDtype(prev_default_); }`. -/
def WithDtypeAs.destruct (g : WithDtypeAs) (s : GlobalState) : GlobalState :=
  SetDefaultDtype g.prev_default s

/-- `struct TensorOptions { DataType dtype; Device device; ... }`. -/
structure TensorOptions where
  dtype : DataType
  device : Device
deriving DecidableEq, Repr

/-- `TensorOptions(): dtype(GetDefaultDtype()), device(GetDefaultDevice()) { }`. -/
def TensorOptions.mk0 (s : GlobalState) : TensorOptions :=
  ⟨GetDefaultDtype s, GetDefaultDevice s⟩

/-- `TensorOptions(DataType dtype): dtype(dtype), device(GetDefaultDevice()) { }`. -/
def TensorOptions.mkDtype (dtype : DataType) (s : GlobalState) : TensorOptions :=
  ⟨dtype, GetDefaultDevice s⟩

/-- `TensorOptions(Device device): dtype(GetDefaultDtype()), device(device) { }`. -/
def TensorOptions.mkDevice (device : Device) (s : GlobalState) : TensorOptions :=
  ⟨GetDefaultDtype s, device⟩

/-- `TensorOptions(DeviceType device_type): dtype(GetDefaultDtype()),
device(device_type) { }` — the bare tag is promoted through `Device`'s
converting constructor. -/
def TensorOptions.mkDeviceType (t : DeviceType) (s : GlobalState) : TensorOptions :=
  ⟨GetDefaultDtype s, Device.ofType t⟩

/-- `TensorOptions(DataType dtype, Device device): dtype(dtype), device(device) { }`.
(The source repeats this signature a second time with the parameter named
`device_type`; both initialize the members from the arguments verbatim.) -/
def TensorOptions.mkFull (dtype : DataType) (device : Device) : TensorOptions :=
  ⟨dtype, device⟩

/-- `TensorOptions(const TensorOptions &other): dtype(other.dtype),
device(other.device) { }`. -/
def TensorOptions.mkCopy (other : TensorOptions) : TensorOptions :=
  ⟨other.dtype, other.device⟩

/-- `inline int64 NextTick() { return ++g_tick_counter; }`: increments the
counter and returns the new value. -/
def NextTick (s : GlobalState) : Int × GlobalState :=
  (s.g_tick_counter + 1, { s with g_tick_counter := s.g_tick_counter + 1 })

/-- `inline int64 CurrentTick() { return g_tick_counter; }`: reads the counter
without modifying any state (the unchanged state is returned explicitly to
make the frame condition a theorem). -/
def CurrentTick (s : GlobalState) : Int × GlobalState :=
  (s.g_tick_counter, s)

/-- `inline bool DebugMode() { return debug_mode; }`. -/
def DebugMode (s : GlobalState) : Bool := s.debug_mode

/-- `inline void SetDebugMode(bool b) { debug_mode = b; }`. -/
def SetDebugMode (b : Bool) (s : GlobalState) : GlobalState :=
  { s with debug_mode := b }

/-- Running `NextTick()` a given number of times sequentially, collecting the
returned values in call order. -/
def runNextTicks : Nat → GlobalState → List Int × GlobalState
  | 0, s => ([], s)
  | n + 1, s =>
    let p := NextTick s
    let q := runNextTicks n p.2
    (p.1 :: q.1, q.2)

/-- One register-mutating call: `SetDefaultDevice` or `SetDefaultDtype`. -/
inductive RegOp where
  | setDevice (d : Device)
  | setDtype (t : DataType)
deriving DecidableEq, Repr

/-- The state transition of a single register-mutating call. -/
def RegOp.apply : RegOp → GlobalState → GlobalState
  | .setDevice d, s => SetDefaultDevice d s
  | .setDtype t, s => SetDefaultDtype t s

/-- Running a sequence of setter calls in order. -/
def runRegOps (ops : List RegOp) (s : GlobalState) : GlobalState :=
  ops.foldl (fun st op => op.apply st) s

/-- The argument of the most recent (last) `SetDefaultDevice` in a call
sequence, if any. -/
def lastSetDevice : List RegOp → Option Device
  | [] => none
  | op :: ops =>
    match lastSetDevice ops with
    | some d => some d
    | none =>
      match op with
      | .setDevice d => some d
      | .setDtype _ => none

/-- The argument of the most recent (last) `SetDefaultDtype` in a call
sequence, if any. -/
def lastSetDtype : List RegOp → Option DataType
  | [] => none
  | op :: ops =>
    match lastSetDtype ops with
    | some t => some t
    | none =>
      match op with
      | .setDevice _ => none
      | .setDtype t => some t

/-- Running a sequence of `SetDebugMode` calls in order. -/
def runSetDebugModes (bs : List Bool) (s : GlobalState) : GlobalState :=
  bs.foldl (fun st b => SetDebugMode b st) s

theorem runNextTicks_eq (n : Nat) (s : GlobalState) :
    runNextTicks n s =
      ((List.range n).map (fun i : Nat => s.g_tick_counter + (i : Int) + 1),
       { s with g_tick_counter := s.g_tick_counter + n }) := by
  induction n generalizing s with
  | zero => simp [runNextTicks]
  | succ n ih =>
    simp only [runNextTicks, NextTick, ih, List.range_succ_eq_map, List.map_cons,
      List.map_map, Prod.mk.injEq, List.cons.injEq]
    refine ⟨⟨by push_cast; ring, List.map_congr_left fun i _ => ?_⟩, ?_⟩
    · simp only [Function.comp]
      push_cast
      ring
    · simp only [GlobalState.mk.injEq, true_and, and_true]
      push_cast
      omega

theorem getDefaultDevice_runRegOps (ops : List RegOp) (s : GlobalState) :
    GetDefaultDevice (runRegOps ops s) =
      (lastSetDevice ops).getD (GetDefaultDevice s) := by
  induction ops generalizing s with
  | nil => rfl
  | cons op ops ih =>
    have hrun : runRegOps (op :: ops) s = runRegOps ops (op.apply s) := rfl
    rw [hrun, ih]
    cases hop : lastSetDevice ops with
    | some d => simp [lastSetDevice, hop]
    | none =>
      cases op <;>
        simp [lastSetDevice, hop, RegOp.apply, GetDefaultDevice,
          SetDefaultDevice, SetDefaultDtype]

theorem getDefaultDtype_runRegOps (ops : List RegOp) (s : GlobalState) :
    GetDefaultDtype (runRegOps ops s) =
      (lastSetDtype ops).getD (GetDefaultDtype s) := by
  induction ops generalizing s with
  | nil => rfl
  | cons op ops ih =>
    have hrun : runRegOps (op :: ops) s = runRegOps ops (op.apply s) := rfl
    rw [hrun, ih]
    cases hop : lastSetDtype ops with
    | some t => simp [lastSetDtype, hop]
    | none =>
      cases op <;>
        simp [lastSetDtype, hop, RegOp.apply, GetDefaultDtype,
          SetDefaultDevice, SetDefaultDtype]

theorem debugMode_runSetDebugModes (bs : List Bool) (s : GlobalState) :
    DebugMode (runSetDebugModes bs s) = bs.getLastD (DebugMode s) := by
  induction bs generalizing s with
  | nil => rfl
  | cons b bs ih =>
    have hrun : runSetDebugModes (b :: bs) s = runSetDebugModes bs (SetDebugMode b s) := rfl
    rw [hrun, ih, List.getLastD_cons]
    rfl

/-- Claim C1: evaluating `SizeOf` at each enumerant refutes the claim that
every concrete variant gets a byte width without failing: `kFloatDtype`
returns 8, but the concrete variant `kDoubleDtype` (value 2) reaches the
fatal `KALDI_ERR` branch, while the 4-byte width goes to the `kDefaultDtype`
placeholder instead. -/
theorem C1_sizeOf_double_hits_error_branch :
    SizeOf (DataType.toInt DataType.kDoubleDtype) = SizeOfOutcome.kaldiErr 2 ∧
    SizeOf (DataType.toInt DataType.kFloatDtype) = SizeOfOutcome.ret 8 ∧
    SizeOf (DataType.toInt DataType.kDefaultDtype) = SizeOfOutcome.ret 4 :=
  ⟨rfl, rfl, rfl⟩

/-- Claim C2 counterexample: the constructor taking an explicit `DataType`
copies it verbatim, so supplying the `kDefaultDtype` placeholder yields a
`TensorOptions` whose dtype is the placeholder, refuting the claim for that
combination of explicitly supplied fields. -/
theorem C2_counterexample_placeholder_dtype :
    (TensorOptions.mkDtype DataType.kDefaultDtype initState).dtype =
      DataType.kDefaultDtype := rfl

/-- Claim C2 (amended): every `TensorOptions` produced by a constructor has a
concrete `Device` (its `device_type` is one of the two concrete tags), and
its `DataType` is concrete provided any explicitly supplied dtype is not the
placeholder and, for the constructors that read the dtype register, the
register holds a concrete dtype. -/
theorem C2_tensorOptions_concrete (s : GlobalState) (dtype : DataType)
    (device : Device) (t : DeviceType)
    (hreg : GetDefaultDtype s ≠ DataType.kDefaultDtype)
    (hdt : dtype ≠ DataType.kDefaultDtype) :
    ((TensorOptions.mk0 s).dtype ≠ DataType.kDefaultDtype ∧
     (TensorOptions.mkDtype dtype s).dtype ≠ DataType.kDefaultDtype ∧
     (TensorOptions.mkDevice device s).dtype ≠ DataType.kDefaultDtype ∧
     (TensorOptions.mkDeviceType t s).dtype ≠ DataType.kDefaultDtype ∧
     (TensorOptions.mkFull dtype device).dtype ≠ DataType.kDefaultDtype) ∧
    (∀ o : TensorOptions, o.device.device_type = DeviceType.kCpuDevice ∨
      o.device.device_type = DeviceType.kCudaDevice) := by
  refine ⟨⟨hreg, hdt, hreg, hreg, hdt⟩, fun o => ?_⟩
  cases h : o.device.device_type with
  | kCpuDevice => exact Or.inl rfl
  | kCudaDevice => exact Or.inr rfl

/-- Claim C2 witness: the amended theorem instantiated at the initial state
with explicit dtype `kDoubleDtype`. -/
theorem C2_tensorOptions_concrete_witness :
    (TensorOptions.mkDtype DataType.kDoubleDtype initState).dtype ≠
      DataType.kDefaultDtype :=
  ((C2_tensorOptions_concrete initState DataType.kDoubleDtype Device.mkDefault
    DeviceType.kCudaDevice (by decide) (by decide)).1).2.1

/-- Claim C3: for values outside the known variant set (3 and -1 here) the
switch matches no case and control falls off the end of the function with no
fatal diagnostic and no result, refuting the claim that fatal failure naming
the value is the only outcome for such inputs; moreover the only input on
which the fatal branch fires at all is the in-set value 2 (kDoubleDtype). -/
theorem C3_sizeOf_out_of_range_falls_through :
    SizeOf 3 = SizeOfOutcome.fallThrough ∧
    SizeOf (-1) = SizeOfOutcome.fallThrough ∧
    (∀ dtype : Int, SizeOf dtype = SizeOfOutcome.kaldiErr dtype →
      dtype = DataType.toInt DataType.kDoubleDtype) := by
  refine ⟨rfl, rfl, fun dtype h => ?_⟩
  unfold SizeOf at h
  split_ifs at h with h0 h1 h2
  · exact h2

/-- Claim C3 witness: the fatal-branch characterization applied at the
concrete input 2, its hypothesis discharged by evaluation. -/
theorem C3_sizeOf_witness :
    (2 : Int) = DataType.toInt DataType.kDoubleDtype :=
  C3_sizeOf_out_of_range_falls_through.2.2 2 rfl

/-- Claim C4: destroying a guard writes back exactly the register value
captured at its construction, whatever intermediate state the guarded body
produced; with two nested guards, the register holds the inner value while
both are live, destroying the inner guard restores the outer guard's
installed value, and destroying the outer guard afterwards restores the
whole original state. Stated for both `WithDtypeAs` and `WithDeviceAs`. -/
theorem C4_guard_lifo_restore (s sMid : GlobalState) (d1 d2 : DataType)
    (v1 v2 : Device) :
    (GetDefaultDtype (WithDtypeAs.destruct (WithDtypeAs.construct d1 s).1 sMid) =
      GetDefaultDtype s) ∧
    (GetDefaultDevice (WithDeviceAs.destruct (WithDeviceAs.construct v1 s).1 sMid) =
      GetDefaultDevice s) ∧
    (GetDefaultDtype (WithDtypeAs.construct d2 (WithDtypeAs.construct d1 s).2).2 = d2) ∧
    (GetDefaultDtype
       (WithDtypeAs.destruct (WithDtypeAs.construct d2 (WithDtypeAs.construct d1 s).2).1
         (WithDtypeAs.construct d2 (WithDtypeAs.construct d1 s).2).2) = d1) ∧
    (WithDtypeAs.destruct (WithDtypeAs.construct d1 s).1
       (WithDtypeAs.destruct (WithDtypeAs.construct d2 (WithDtypeAs.construct d1 s).2).1
         (WithDtypeAs.construct d2 (WithDtypeAs.construct d1 s).2).2) = s) ∧
    (GetDefaultDevice (WithDeviceAs.construct v2 (WithDeviceAs.construct v1 s).2).2 = v2) ∧
    (GetDefaultDevice
       (WithDeviceAs.destruct (WithDeviceAs.construct v2 (WithDeviceAs.construct v1 s).2).1
         (WithDeviceAs.construct v2 (WithDeviceAs.construct v1 s).2).2) = v1) ∧
    (WithDeviceAs.destruct (WithDeviceAs.construct v1 s).1
       (WithDeviceAs.destruct (WithDeviceAs.construct v2 (WithDeviceAs.construct v1 s).2).1
         (WithDeviceAs.construct v2 (WithDeviceAs.construct v1 s).2).2) = s) :=
  ⟨rfl, rfl, rfl, rfl, rfl, rfl, rfl, rfl⟩

/-- Claim C5: resolver precedence — the no-argument constructor reads both
registers; an explicit dtype is kept and the device register fills the rest;
explicit dtype and device are kept verbatim (never replaced by ambient
defaults); and omitted fields are read from the registers at construction
time, so constructing right after register writes sees the new values. -/
theorem C5_tensorOptions_resolution (s : GlobalState) (dtype : DataType)
    (device : Device) (t : DeviceType) :
    TensorOptions.mk0 s = ⟨GetDefaultDtype s, GetDefaultDevice s⟩ ∧
    TensorOptions.mkDtype dtype s = ⟨dtype, GetDefaultDevice s⟩ ∧
    TensorOptions.mkDevice device s = ⟨GetDefaultDtype s, device⟩ ∧
    TensorOptions.mkDeviceType t s = ⟨GetDefaultDtype s, Device.ofType t⟩ ∧
    TensorOptions.mkFull dtype device = ⟨dtype, device⟩ ∧
    TensorOptions.mk0 (SetDefaultDtype dtype (SetDefaultDevice device s)) =
      ⟨dtype, device⟩ :=
  ⟨rfl, rfl, rfl, rfl, rfl, rfl⟩

/-- Claim C6: starting from the initial counter 0, N sequential `NextTick`
calls return N values: the list has length N, its first element is 1
(whenever at least one call is made), it is strictly increasing and pairwise
distinct; and each single call increments the counter and returns the new
value. -/
theorem C6_nextTick_sequence (n : Nat) :
    ((runNextTicks n initState).1).length = n ∧
    ((runNextTicks (n + 1) initState).1).head? = some 1 ∧
    List.Pairwise (fun a b : Int => a < b) (runNextTicks n initState).1 ∧
    List.Pairwise (fun a b : Int => a ≠ b) (runNextTicks n initState).1 ∧
    (∀ s : GlobalState, NextTick s =
      (s.g_tick_counter + 1, { s with g_tick_counter := s.g_tick_counter + 1 })) := by
  have hlist : ∀ m : Nat, (runNextTicks m initState).1 =
      (List.range m).map (fun i : Nat => (i : Int) + 1) := by
    intro m
    rw [runNextTicks_eq]
    simp [initState]
  have hlt : List.Pairwise (fun a b : Int => a < b) (runNextTicks n initState).1 := by
    rw [hlist n]
    exact List.Pairwise.map _ (fun a b hab => by omega) (List.pairwise_lt_range n)
  refine ⟨by rw [hlist n]; simp, ?_, hlt, hlt.imp (fun hab => ne_of_lt hab), fun s => rfl⟩
  rw [hlist (n + 1), List.range_succ_eq_map]
  simp

/-- Claim C7: after any sequence of setter calls, each getter returns exactly
the argument of the most recent corresponding setter, or the starting
register value if that setter never ran; and each setter unconditionally
overwrites its register. -/
theorem C7_registers_last_write_wins (ops : List RegOp) (s : GlobalState)
    (device : Device) (dtype : DataType) :
    GetDefaultDevice (runRegOps ops s) =
      (lastSetDevice ops).getD (GetDefaultDevice s) ∧
    GetDefaultDtype (runRegOps ops s) =
      (lastSetDtype ops).getD (GetDefaultDtype s) ∧
    GetDefaultDevice (SetDefaultDevice device s) = device ∧
    GetDefaultDtype (SetDefaultDtype dtype s) = dtype :=
  ⟨getDefaultDevice_runRegOps ops s, getDefaultDtype_runRegOps ops s, rfl, rfl⟩

/-- Claim C8: `CurrentTick` returns the counter and leaves the whole state
unchanged (so no later `NextTick` or `CurrentTick` result is affected); on
the initial state it returns 0, and after N `NextTick` calls it returns the
most recently issued value (the last element of the issued list, 0 when the
list is empty). -/
theorem C8_currentTick_frame (n : Nat) (s : GlobalState) :
    CurrentTick s = (s.g_tick_counter, s) ∧
    (CurrentTick initState).1 = 0 ∧
    (CurrentTick (runNextTicks n initState).2).1 =
      ((runNextTicks n initState).1).getLastD 0 := by
  refine ⟨rfl, rfl, ?_⟩
  rw [runNextTicks_eq]
  simp only [CurrentTick, initState]
  cases n with
  | zero => simp
  | succ m =>
    rw [List.range_succ, List.map_append]
    simp

/-- Claim C9: `DebugMode` is false on the freshly initialized state, each
`SetDebugMode` call overwrites the flag, and after any sequence of
`SetDebugMode` calls `DebugMode` returns the argument of the most recent
call (or the starting flag value if the sequence is empty). -/
theorem C9_debugMode_last_write (bs : List Bool) (s : GlobalState) (b : Bool) :
    DebugMode initState = false ∧
    DebugMode (SetDebugMode b s) = b ∧
    DebugMode (runSetDebugModes bs s) = bs.getLastD (DebugMode s) :=
  ⟨rfl, rfl, debugMode_runSetDebugModes bs s⟩

/-- Claim C10: the no-argument `Device` constructor yields `kCpuDevice`, and
the `TensorOptions` constructor taking a bare `DeviceType` tag promotes it to
a `Device` whose `device_type` is exactly that tag. -/
theorem C10_device_default_and_tag_promotion (t : DeviceType) (s : GlobalState) :
    Device.mkDefault.device_type = DeviceType.kCpuDevice ∧
    (TensorOptions.mkDeviceType t s).device.device_type = t ∧
    (TensorOptions.mkDeviceType t s).device = Device.ofType t :=
  ⟨rfl, rfl, rfl⟩

end KaldiTensor
